import Mathlib

/-!
Shallow embedding of the AliveHere voice-cloning orchestrator (src/main.py).

The service is a single synchronous HTTP handler (`clone_voice`) that drives a
linear workflow against four external collaborators: a blob store (marker
record, recordings inventory, credentials record), a concatenation webhook
(pyglue), a voice-cloning API (ElevenLabs), and a marker-record write.  We
model each collaborator's observable outcome as data in a `World`, translate
every helper function of the source into a Lean function of the same name, and
translate the handler itself into `cloneVoice`, which returns both the HTTP
response and a trace counting how often each collaborator was invoked.

Numeric note: the duration estimate in the source is float arithmetic
`total_bytes / 1024 / 16`; both divisors are powers of two and the byte totals
involved are far below 2^53, so the computation is exact and is modelled in ℚ.
Python's `round(x, 1)` (round-half-to-even at one decimal) is modelled by
`pyRound1`.
-/

namespace VoiceClone

/-- A blob under the user's recordings area: object name plus byte size as
reported by the store (the size metadata may be missing, hence `Option`). -/
structure Blob where
  name : String
  size : Option Nat
deriving DecidableEq, Repr

/-- Python truthiness of an optional string: `None` and `""` are falsy. -/
def truthy : Option String → Bool
  | none => false
  | some s => s != ""

/-- Python truthiness of an optional byte count: `None` and `0` are falsy
(this is the `if blob.size` filter in `calculate_audio_duration`). -/
def truthySize : Option Nat → Bool
  | none => false
  | some n => n != 0

/-- Python truthiness of an optional byte string: `None` and `b""` are falsy
(this is the `if not concatenated_audio` check in the handler). -/
def truthyBytes : Option (List Nat) → Bool
  | none => false
  | some bs => !bs.isEmpty

/-- Python `a or b` on optional header values: yields `a` when `a` is truthy,
otherwise `b` (so an empty-string header falls through, as in the source). -/
def pyOr (a b : Option String) : Option String :=
  if truthy a then a else b

/-- The recognized audio extensions of `calculate_audio_duration`. -/
def audioExtensions : List String :=
  [".mp3", ".wav", ".webm", ".m4a"]

/-- Python `s.endswith(post)`: the characters of `post` are a suffix of the
characters of `s`. -/
def strEndsWith (s post : String) : Bool :=
  post.data.isSuffixOf s.data

/-- The `name.endswith(('.mp3', '.wav', '.webm', '.m4a'))` filter. -/
def isAudioFile (b : Blob) : Bool :=
  audioExtensions.any (fun ext => strEndsWith b.name ext)

/-- Result of `calculate_audio_duration`: the dict with estimated duration,
recognized-file count and total byte size. -/
structure AudioInfo where
  duration_seconds : ℚ
  file_count : Nat
  total_bytes : Nat
deriving DecidableEq, Repr

/-- Translation of `calculate_audio_duration` (src/main.py:43-65): filter the
listed blobs to recognized audio extensions, sum the truthy sizes, and
estimate seconds as `total_kb / 16` with `total_kb = total_bytes / 1024`. -/
def calculate_audio_duration (blobs : List Blob) : AudioInfo :=
  let audio_files := blobs.filter isAudioFile
  let total_bytes : ℕ := ((audio_files.filter fun b => truthySize b.size).map
    fun b => b.size.getD 0).sum
  let total_kb : ℚ := (total_bytes : ℚ) / 1024
  { duration_seconds := total_kb / 16,
    file_count := audio_files.length
    total_bytes := total_bytes }

/-- Observable state of the per-user marker record
`{userId}/voice_id/voice_id.json` as seen by `check_voice_exists`:
`readError` covers an exception anywhere in the existence check, the
download, or the JSON parse; `present v` is a parsed JSON object whose
`voice_id` field is `v` (`none` when the field is absent). -/
inductive MarkerState where
  | readError
  | absent
  | present (voice_id : Option String)
deriving DecidableEq, Repr

/-- Translation of `check_voice_exists` (src/main.py:68-83): return the
marker's `voice_id` field when the record exists and is readable, `None`
when the record is absent or any exception occurs. -/
def check_voice_exists : MarkerState → Option String
  | .readError => none
  | .absent => none
  | .present v => v

/-- Outcome of an outbound HTTP call: either a response with a status code
and a body, or a raised exception (timeout or transport failure). -/
inductive HttpOutcome (β : Type) where
  | response (status : Nat) (body : β)
  | failure
deriving DecidableEq, Repr

/-- Translation of `call_pyglue` (src/main.py:86-110): on HTTP 200 return the
raw response bytes, on any other status or on an exception return `None`. -/
def call_pyglue (r : HttpOutcome (List Nat)) : Option (List Nat) :=
  match r with
  | .response status content => if status == 200 then some content else none
  | .failure => none

/-- Body of an ElevenLabs response as consumed by `clone_voice_elevenlabs`:
either JSON that parsed, carrying the optional `voice_id` field, or a body
on which `response.json()` raises. -/
inductive ElevenBody where
  | parsed (voice_id : Option String)
  | unparsable
deriving DecidableEq, Repr

/-- Translation of `clone_voice_elevenlabs` (src/main.py:113-142): on HTTP
200 with parseable JSON return the `voice_id` field (which may be `None`);
on a 200 whose body fails to parse, on any non-200 status, or on an
exception, return `None`. -/
def clone_voice_elevenlabs (r : HttpOutcome ElevenBody) : Option String :=
  match r with
  | .response status body =>
    if status == 200 then
      match body with
      | .parsed v => v
      | .unparsable => none
    else none
  | .failure => none

/-- The JSON document written by `save_voice_id` (src/main.py:145-169). -/
structure VoiceIdRecord where
  userId : String
  voice_id : String
  user_voice_id : String
  created_at : String
  version : Nat
deriving DecidableEq, Repr

/-- The record content `save_voice_id` serializes for a user and voice id. -/
def voiceIdRecord (user_id voice_id : String) : VoiceIdRecord :=
  { userId := user_id,
    voice_id := voice_id,
    user_voice_id := voice_id,
    created_at := "auto",
    version := 1 }

/-- Translation of `save_voice_id`'s result: `True` when the blob upload
succeeds, `False` when it raises. -/
def save_voice_id (uploadOk : Bool) : Bool := uploadOk

/-- Observable state of the credentials record
`{userId}/credentials/login_credentials.json` as seen by `get_user_name`. -/
inductive CredsState where
  | readError
  | absent
  | present (firstName lastName : Option String)
deriving DecidableEq, Repr

/-- Translation of `get_user_name` (src/main.py:172-187): first and last name
from the credentials record, with `('User', 'Voice')` when the record is
absent or unreadable and per-field defaults when a field is missing. -/
def get_user_name : CredsState → String × String
  | .readError => ("User", "Voice")
  | .absent => ("User", "Voice")
  | .present f l => (f.getD "User", l.getD "Voice")

/-- Python `round(q, 1)`: round to one decimal, ties to even, modelled
exactly on ℚ. -/
def pyRound1 (q : ℚ) : ℚ :=
  let t : ℚ := 10 * q
  let f : ℤ := t.floor
  let r : ℤ :=
    if t - f < 1 / 2 then f
    else if t - f > 1 / 2 then f + 1
    else if f % 2 = 0 then f else f + 1
  (r : ℚ) / 10

/-- The JSON response of the handler, flattened: `status` is the HTTP status
code and every field the handler ever emits is optional, `none` meaning the
field is absent from the body. -/
structure Response where
  status : Nat
  success : Option Bool
  message : Option String
  error : Option String
  voice_id : Option String
  skipped : Option Bool
  required : Option Nat
  actual : Option ℚ
  user_id : Option String
  voice_name : Option String
  audio_duration : Option ℚ
  file_count : Option Nat
deriving DecidableEq, Repr

/-- A response with no body fields; concrete responses override fields. -/
def Response.base : Response :=
  { status := 200, success := none, message := none, error := none,
    voice_id := none, skipped := none, required := none, actual := none,
    user_id := none, voice_name := none, audio_duration := none,
    file_count := none }

/-- The 401 body of `require_api_key` (src/main.py:38). -/
def unauthorizedResponse : Response :=
  { Response.base with
    status := 401,
    error := some "Unauthorized: Invalid API key" }

/-- The 400 body for a missing `userId` (src/main.py:215). -/
def missingUserIdResponse : Response :=
  { Response.base with status := 400, error := some "Missing userId" }

/-- The idempotence short-circuit body (src/main.py:225-230). -/
def skipResponse (vid : Option String) : Response :=
  { Response.base with
    status := 200, success := some true,
    message := some "Voice already exists", voice_id := vid,
    skipped := some true }

/-- The insufficient-audio 400 body (src/main.py:237-243). -/
def insufficientResponse (info : AudioInfo) : Response :=
  { Response.base with
    status := 400, success := some false,
    error := some "Insufficient audio duration", required := some 15,
    actual := some (pyRound1 info.duration_seconds),
    file_count := some info.file_count }

/-- The concatenation-failure 500 body (src/main.py:250-253). -/
def concatFailedResponse : Response :=
  { Response.base with
    status := 500, success := some false,
    error := some "Failed to concatenate audio files" }

/-- The cloning-failure 500 body (src/main.py:269-272). -/
def cloneFailedResponse : Response :=
  { Response.base with
    status := 500, success := some false,
    error := some "Failed to clone voice on ElevenLabs" }

/-- The persistence-failure 500 body (src/main.py:276-280), which still
carries the cloned voice id. -/
def saveFailedResponse (vid : String) : Response :=
  { Response.base with
    status := 500, success := some false,
    error := some "Failed to save voice_id to storage", voice_id := some vid }

/-- The full-success 200 body (src/main.py:291-299). -/
def successResponse (vid user_id voice_name : String) (info : AudioInfo) :
    Response :=
  { Response.base with
    status := 200, success := some true,
    message := some "Voice cloned successfully", voice_id := some vid,
    user_id := some user_id, voice_name := some voice_name,
    audio_duration := some (pyRound1 info.duration_seconds),
    file_count := some info.file_count }

/-- How often each external collaborator was invoked while handling one
request. -/
structure Trace where
  markerChecks : Nat
  listRecordings : Nat
  pyglueCalls : Nat
  credsReads : Nat
  elevenLabsCalls : Nat
  saveCalls : Nat
deriving DecidableEq, Repr

/-- The trace of a request that executed no workflow step. -/
def Trace.empty : Trace :=
  { markerChecks := 0, listRecordings := 0, pyglueCalls := 0,
    credsReads := 0, elevenLabsCalls := 0, saveCalls := 0 }

/-- An inbound request: the two candidate auth headers and the `userId`
field of the JSON body (`none` when absent; other body fields are ignored
by the handler and are not modelled). -/
structure Request where
  apiKeyHeader : Option String
  xApiKeyHeader : Option String
  userId : Option String
deriving DecidableEq, Repr

/-- Translation of the `require_api_key` decorator (src/main.py:32-40): the
provided key is `headers.get('API_KEY') or headers.get('X-API-Key')`, and the
request is authorized exactly when that value is truthy and equals the
configured `API_KEY` (which is `None` when the variable is unset). -/
def require_api_key (apiKeyConfig : Option String) (req : Request) : Bool :=
  let provided := pyOr req.apiKeyHeader req.xApiKeyHeader
  truthy provided && provided == apiKeyConfig

/-- The observable state of the outside world for one request: marker
record, recordings listing, pyglue outcome, credentials record, ElevenLabs
outcome, and whether the marker write would succeed. -/
structure World where
  marker : MarkerState
  recordings : List Blob
  pyglue : HttpOutcome (List Nat)
  creds : CredsState
  elevenlabs : HttpOutcome ElevenBody
  uploadOk : Bool
deriving DecidableEq, Repr

/-- Translation of the `/clone-voice` handler `clone_voice`
(src/main.py:196-299) together with its `require_api_key` decorator:
returns the JSON response (with status) and the trace of collaborator
invocations. -/
def cloneVoice (apiKeyConfig : Option String) (req : Request) (w : World) :
    Response × Trace :=
  if require_api_key apiKeyConfig req = false then
    (unauthorizedResponse, Trace.empty)
  else if truthy req.userId = false then
    (missingUserIdResponse, Trace.empty)
  else
    let user_id := req.userId.getD ""
    let existing_voice := check_voice_exists w.marker
    if truthy existing_voice then
      (skipResponse existing_voice, { Trace.empty with markerChecks := 1 })
    else
      let audio_info := calculate_audio_duration w.recordings
      let t2 : Trace := { Trace.empty with markerChecks := 1, listRecordings := 1 }
      if audio_info.duration_seconds < 15 then
        (insufficientResponse audio_info, t2)
      else
        let concatenated_audio := call_pyglue w.pyglue
        let t3 : Trace := { t2 with pyglueCalls := 1 }
        if truthyBytes concatenated_audio = false then
          (concatFailedResponse, t3)
        else
          let nm := get_user_name w.creds
          let voice_name := nm.1 ++ " " ++ nm.2
          let t4 : Trace := { t3 with credsReads := 1 }
          let voice_id := clone_voice_elevenlabs w.elevenlabs
          let t5 : Trace := { t4 with elevenLabsCalls := 1 }
          if truthy voice_id = false then
            (cloneFailedResponse, t5)
          else
            let t6 : Trace := { t5 with saveCalls := 1 }
            if save_voice_id w.uploadOk = false then
              (saveFailedResponse (voice_id.getD ""), t6)
            else
              (successResponse (voice_id.getD "") user_id voice_name
                audio_info, t6)

/-- Formula for the duration estimate as the spec states it:
`duration_seconds = (total_bytes / 1024) / 16` where `total_bytes` is the sum
of the byte sizes of the recognized-extension blobs. -/
def specDurationFormula (blobs : List Blob) : ℚ :=
  (((((blobs.filter isAudioFile).map fun b => b.size.getD 0).sum : ℕ) : ℚ))
    / 1024 / 16

/-- Fixture: an authorized request for user `user1` via the `API_KEY`
header, against the configured secret `"secret"`. -/
def reqOk : Request :=
  { apiKeyHeader := some "secret", xApiKeyHeader := none,
    userId := some "user1" }

/-- Fixture: a request presenting a wrong key in the `X-API-Key` header. -/
def reqBadKey : Request :=
  { apiKeyHeader := none, xApiKeyHeader := some "wrong",
    userId := some "user1" }

/-- Fixture: an authorized request whose JSON body has no `userId` field. -/
def reqNoUser : Request :=
  { apiKeyHeader := some "secret", xApiKeyHeader := none, userId := none }

/-- Fixture: ten recognized audio blobs of 49152 bytes each, 491520 bytes
(480 KB) in total. -/
def blobs480 : List Blob :=
  [ { name := "u/recordings/r0.mp3", size := some 49152 },
    { name := "u/recordings/r1.mp3", size := some 49152 },
    { name := "u/recordings/r2.mp3", size := some 49152 },
    { name := "u/recordings/r3.wav", size := some 49152 },
    { name := "u/recordings/r4.webm", size := some 49152 },
    { name := "u/recordings/r5.m4a", size := some 49152 },
    { name := "u/recordings/r6.mp3", size := some 49152 },
    { name := "u/recordings/r7.mp3", size := some 49152 },
    { name := "u/recordings/r8.mp3", size := some 49152 },
    { name := "u/recordings/r9.mp3", size := some 49152 } ]

/-- Fixture: one recognized audio blob of 245760 bytes (240 KB). -/
def blobs240 : List Blob :=
  [ { name := "u/recordings/r0.mp3", size := some 245760 } ]

/-- Fixture: a world in which every workflow step succeeds: no marker
record, 480 KB of recordings, pyglue returns bytes, ElevenLabs returns
`voice_id = "abc123"`, the marker write succeeds. -/
def worldBase : World :=
  { marker := .absent, recordings := blobs480,
    pyglue := .response 200 [1, 2, 3], creds := .absent,
    elevenlabs := .response 200 (.parsed (some "abc123")), uploadOk := true }

/-- Fixture: like `worldBase` but the marker file exists while its JSON has
no `voice_id` field. -/
def worldMarkerNoId : World := { worldBase with marker := .present none }

/-- Fixture: like `worldBase` but the marker file exists with `voice_id`
equal to the empty string. -/
def worldMarkerEmptyId : World :=
  { worldBase with marker := .present (some "") }

/-- Fixture: like `worldBase` but a marker record with `voice_id`
`"voice1"` exists. -/
def worldMarkerSet : World :=
  { worldBase with marker := .present (some "voice1") }

/-- Fixture: like `worldBase` but with only 240 KB of recordings. -/
def world240 : World := { worldBase with recordings := blobs240 }

/-- Fixture: like `worldBase` but the marker write fails. -/
def worldSaveFail : World := { worldBase with uploadOk := false }

/-- Fixture: like `worldBase` but ElevenLabs answers 200 with a JSON body
that has no `voice_id` field. -/
def worldCloneNoId : World :=
  { worldBase with elevenlabs := .response 200 (.parsed none) }

/-- Fixture: like `worldBase` but pyglue answers with HTTP 503. -/
def worldConcat503 : World :=
  { worldBase with pyglue := .response 503 [] }

/-! ## Branch characterizations of the handler

One lemma per terminal state of the workflow, giving the exact response and
collaborator trace of `cloneVoice` under the branch conditions read off the
source. -/

theorem cloneVoice_unauthorized (k : Option String) (req : Request) (w : World)
    (h : require_api_key k req = false) :
    cloneVoice k req w = (unauthorizedResponse, Trace.empty) := by
  simp [cloneVoice, h]

theorem cloneVoice_missingUserId (k : Option String) (req : Request) (w : World)
    (h1 : require_api_key k req = true) (h2 : truthy req.userId = false) :
    cloneVoice k req w = (missingUserIdResponse, Trace.empty) := by
  simp [cloneVoice, h1, h2]

theorem cloneVoice_skip (k : Option String) (req : Request) (w : World)
    (h1 : require_api_key k req = true) (h2 : truthy req.userId = true)
    (h3 : truthy (check_voice_exists w.marker) = true) :
    cloneVoice k req w = (skipResponse (check_voice_exists w.marker),
      { Trace.empty with markerChecks := 1 }) := by
  simp [cloneVoice, h1, h2, h3]

theorem cloneVoice_insufficient (k : Option String) (req : Request) (w : World)
    (h1 : require_api_key k req = true) (h2 : truthy req.userId = true)
    (h3 : truthy (check_voice_exists w.marker) = false)
    (h4 : (calculate_audio_duration w.recordings).duration_seconds < 15) :
    cloneVoice k req w =
      (insufficientResponse (calculate_audio_duration w.recordings),
      { Trace.empty with markerChecks := 1, listRecordings := 1 }) := by
  simp [cloneVoice, h1, h2, h3, h4]

theorem cloneVoice_concatFailed (k : Option String) (req : Request) (w : World)
    (h1 : require_api_key k req = true) (h2 : truthy req.userId = true)
    (h3 : truthy (check_voice_exists w.marker) = false)
    (h4 : ¬ (calculate_audio_duration w.recordings).duration_seconds < 15)
    (h5 : truthyBytes (call_pyglue w.pyglue) = false) :
    cloneVoice k req w = (concatFailedResponse,
      { Trace.empty with
        markerChecks := 1, listRecordings := 1, pyglueCalls := 1 }) := by
  simp [cloneVoice, h1, h2, h3, h4, h5]

theorem cloneVoice_cloneFailed (k : Option String) (req : Request) (w : World)
    (h1 : require_api_key k req = true) (h2 : truthy req.userId = true)
    (h3 : truthy (check_voice_exists w.marker) = false)
    (h4 : ¬ (calculate_audio_duration w.recordings).duration_seconds < 15)
    (h5 : truthyBytes (call_pyglue w.pyglue) = true)
    (h6 : truthy (clone_voice_elevenlabs w.elevenlabs) = false) :
    cloneVoice k req w = (cloneFailedResponse,
      { Trace.empty with
        markerChecks := 1, listRecordings := 1, pyglueCalls := 1,
        credsReads := 1, elevenLabsCalls := 1 }) := by
  simp [cloneVoice, h1, h2, h3, h4, h5, h6]

theorem cloneVoice_saveFailed (k : Option String) (req : Request) (w : World)
    (h1 : require_api_key k req = true) (h2 : truthy req.userId = true)
    (h3 : truthy (check_voice_exists w.marker) = false)
    (h4 : ¬ (calculate_audio_duration w.recordings).duration_seconds < 15)
    (h5 : truthyBytes (call_pyglue w.pyglue) = true)
    (h6 : truthy (clone_voice_elevenlabs w.elevenlabs) = true)
    (h7 : save_voice_id w.uploadOk = false) :
    cloneVoice k req w =
      (saveFailedResponse ((clone_voice_elevenlabs w.elevenlabs).getD ""),
      { markerChecks := 1, listRecordings := 1, pyglueCalls := 1,
        credsReads := 1, elevenLabsCalls := 1, saveCalls := 1 }) := by
  simp [cloneVoice, h1, h2, h3, h4, h5, h6, h7]

theorem cloneVoice_success (k : Option String) (req : Request) (w : World)
    (h1 : require_api_key k req = true) (h2 : truthy req.userId = true)
    (h3 : truthy (check_voice_exists w.marker) = false)
    (h4 : ¬ (calculate_audio_duration w.recordings).duration_seconds < 15)
    (h5 : truthyBytes (call_pyglue w.pyglue) = true)
    (h6 : truthy (clone_voice_elevenlabs w.elevenlabs) = true)
    (h7 : save_voice_id w.uploadOk = true) :
    cloneVoice k req w =
      (successResponse ((clone_voice_elevenlabs w.elevenlabs).getD "")
        (req.userId.getD "")
        ((get_user_name w.creds).1 ++ " " ++ (get_user_name w.creds).2)
        (calculate_audio_duration w.recordings),
      { markerChecks := 1, listRecordings := 1, pyglueCalls := 1,
        credsReads := 1, elevenLabsCalls := 1, saveCalls := 1 }) := by
  simp [cloneVoice, h1, h2, h3, h4, h5, h6, h7]

/-! ## Numeric helpers -/

theorem calculate_audio_duration_eq (blobs : List Blob) :
    calculate_audio_duration blobs =
      { duration_seconds :=
          (((((blobs.filter isAudioFile).filter
              fun b => truthySize b.size).map fun b => b.size.getD 0).sum : ℕ) : ℚ)
            / 1024 / 16,
        file_count := (blobs.filter isAudioFile).length,
        total_bytes := (((blobs.filter isAudioFile).filter
          fun b => truthySize b.size).map fun b => b.size.getD 0).sum } := rfl

theorem sum_truthySize_eq (l : List Blob) :
    ((l.filter fun b => truthySize b.size).map fun b => b.size.getD 0).sum =
      (l.map fun b => b.size.getD 0).sum := by
  induction l with
  | nil => rfl
  | cons b t ih =>
    by_cases hb : truthySize b.size = true
    · simp [List.filter_cons, hb, ih]
    · have h0 : b.size.getD 0 = 0 := by
        cases hs : b.size with
        | none => rfl
        | some n =>
          simp [truthySize, hs] at hb
          simp [hs, hb]
      simp [List.filter_cons, hb, h0, ih]

theorem ratFloor_eq_intFloor (q : ℚ) : q.floor = ⌊q⌋ := rfl

theorem pyRound1_intCast (n : ℤ) : pyRound1 (n : ℚ) = n := by
  have h10 : (10 : ℚ) * (n : ℚ) = ((10 * n : ℤ) : ℚ) := by push_cast; ring
  simp only [pyRound1, h10, ratFloor_eq_intFloor, Int.floor_intCast, sub_self]
  norm_num

theorem blobs480_info : calculate_audio_duration blobs480 =
    { duration_seconds := 30, file_count := 10, total_bytes := 491520 } := by
  rw [calculate_audio_duration_eq]
  have hsum : (((blobs480.filter isAudioFile).filter
      fun b => truthySize b.size).map fun b => b.size.getD 0).sum = 491520 := by
    decide
  have hlen : (blobs480.filter isAudioFile).length = 10 := by decide
  rw [hsum, hlen]
  norm_num

theorem blobs240_info : calculate_audio_duration blobs240 =
    { duration_seconds := 15, file_count := 1, total_bytes := 245760 } := by
  rw [calculate_audio_duration_eq]
  have hsum : (((blobs240.filter isAudioFile).filter
      fun b => truthySize b.size).map fun b => b.size.getD 0).sum = 245760 := by
    decide
  have hlen : (blobs240.filter isAudioFile).length = 1 := by decide
  rw [hsum, hlen]
  norm_num

/-! ## Claims -/

/-- C1 counterexample: the marker file can exist (here with a JSON body
lacking the `voice_id` field) while the workflow still invokes both the
concatenation and the cloning collaborators and returns a non-skip
response, so existence of the marker record alone does not force the
skip behaviour the claim states. -/
theorem C1_counterexample :
    worldMarkerNoId.marker = MarkerState.present none ∧
    require_api_key (some "secret") reqOk = true ∧
    truthy reqOk.userId = true ∧
    (cloneVoice (some "secret") reqOk worldMarkerNoId).2.pyglueCalls = 1 ∧
    (cloneVoice (some "secret") reqOk worldMarkerNoId).2.elevenLabsCalls = 1 ∧
    (cloneVoice (some "secret") reqOk worldMarkerNoId).1.skipped = none := by
  have hdur : ¬ (calculate_audio_duration
      worldMarkerNoId.recordings).duration_seconds < 15 := by
    show ¬ (calculate_audio_duration blobs480).duration_seconds < 15
    rw [blobs480_info]
    norm_num
  have hrun := cloneVoice_success (some "secret") reqOk worldMarkerNoId
    (by decide) (by decide) (by decide) hdur (by decide) (by decide) (by decide)
  rw [hrun]
  exact ⟨rfl, by decide, by decide, rfl, rfl, rfl⟩

/-- C1 (amended): for every authenticated request whose userId names a user
whose marker record exists, is readable, and carries a truthy `voice_id`,
the workflow returns the success-with-skip response with that identifier
and never invokes the concatenation or cloning collaborators. -/
theorem C1_marker_with_id_skips (k : Option String) (req : Request)
    (w : World) (vid : String)
    (h1 : require_api_key k req = true) (h2 : truthy req.userId = true)
    (hm : w.marker = MarkerState.present (some vid)) (hv : vid ≠ "") :
    (cloneVoice k req w).1 = skipResponse (some vid) ∧
    (cloneVoice k req w).1.success = some true ∧
    (cloneVoice k req w).1.voice_id = some vid ∧
    (cloneVoice k req w).1.skipped = some true ∧
    (cloneVoice k req w).2.pyglueCalls = 0 ∧
    (cloneVoice k req w).2.elevenLabsCalls = 0 := by
  have h3 : truthy (check_voice_exists w.marker) = true := by
    rw [hm]
    simp [check_voice_exists, truthy, hv]
  have hrun := cloneVoice_skip k req w h1 h2 h3
  rw [hm] at hrun
  rw [hrun]
  exact ⟨rfl, rfl, rfl, rfl, rfl, rfl⟩

/-- C1 witness: a concrete marker record with `voice_id = "voice1"` makes
the workflow skip with that identifier and zero collaborator calls. -/
theorem C1_marker_with_id_skips_witness :
    worldMarkerSet.marker = MarkerState.present (some "voice1") ∧
    (cloneVoice (some "secret") reqOk worldMarkerSet).1 =
      skipResponse (some "voice1") ∧
    (cloneVoice (some "secret") reqOk worldMarkerSet).2.pyglueCalls = 0 ∧
    (cloneVoice (some "secret") reqOk worldMarkerSet).2.elevenLabsCalls = 0 := by
  have h := C1_marker_with_id_skips (some "secret") reqOk worldMarkerSet
    "voice1" (by decide) (by decide) rfl (by decide)
  exact ⟨rfl, h.1, h.2.2.2.2.1, h.2.2.2.2.2⟩

/-- C2: the duration estimate is exactly
`(sum of recognized-extension blob sizes / 1024) / 16`, and a request that
passes authentication, the userId check, and the idempotence check fails
with "Insufficient audio duration" exactly when that estimate is strictly
below 15 (equality with the threshold passes the gate). -/
theorem C2_duration_formula_and_gate (k : Option String) (req : Request)
    (w : World)
    (h1 : require_api_key k req = true) (h2 : truthy req.userId = true)
    (h3 : truthy (check_voice_exists w.marker) = false) :
    (∀ blobs : List Blob,
      (calculate_audio_duration blobs).duration_seconds =
        specDurationFormula blobs) ∧
    ((cloneVoice k req w).1.error = some "Insufficient audio duration" ↔
      (calculate_audio_duration w.recordings).duration_seconds < 15) := by
  constructor
  · intro blobs
    rw [calculate_audio_duration_eq]
    simp only [specDurationFormula]
    rw [sum_truthySize_eq]
  · by_cases hd :
        (calculate_audio_duration w.recordings).duration_seconds < 15
    · rw [cloneVoice_insufficient k req w h1 h2 h3 hd]
      exact iff_of_true rfl hd
    · have hne : (cloneVoice k req w).1.error ≠
          some "Insufficient audio duration" := by
        by_cases h5 : truthyBytes (call_pyglue w.pyglue) = true
        · by_cases h6 : truthy (clone_voice_elevenlabs w.elevenlabs) = true
          · by_cases h7 : save_voice_id w.uploadOk = true
            · rw [cloneVoice_success k req w h1 h2 h3 hd h5 h6 h7]
              show (none : Option String) ≠ some "Insufficient audio duration"
              decide
            · rw [cloneVoice_saveFailed k req w h1 h2 h3 hd h5 h6
                (by simpa using h7)]
              show (some "Failed to save voice_id to storage" :
                Option String) ≠ some "Insufficient audio duration"
              decide
          · rw [cloneVoice_cloneFailed k req w h1 h2 h3 hd h5
              (by simpa using h6)]
            show (some "Failed to clone voice on ElevenLabs" :
              Option String) ≠ some "Insufficient audio duration"
            decide
        · rw [cloneVoice_concatFailed k req w h1 h2 h3 hd
            (by simpa using h5)]
          show (some "Failed to concatenate audio files" :
            Option String) ≠ some "Insufficient audio duration"
          decide
      exact iff_of_false hne hd

/-- C2 witness: 240 KB of recordings (245760 bytes) estimate to exactly 15
seconds, which passes the gate: the workflow does not return the
insufficiency error. -/
theorem C2_duration_formula_and_gate_witness :
    (calculate_audio_duration blobs240).duration_seconds =
      specDurationFormula blobs240 ∧
    (calculate_audio_duration blobs240).duration_seconds = 15 ∧
    (calculate_audio_duration blobs240).total_bytes = 245760 ∧
    (cloneVoice (some "secret") reqOk world240).1.error ≠
      some "Insufficient audio duration" := by
  have h := C2_duration_formula_and_gate (some "secret") reqOk world240
    (by decide) (by decide) (by decide)
  refine ⟨h.1 blobs240, ?_, ?_, ?_⟩
  · rw [blobs240_info]
  · rw [blobs240_info]
  · intro hc
    have hlt := h.2.mp hc
    rw [show world240.recordings = blobs240 from rfl, blobs240_info] at hlt
    norm_num at hlt

/-- C3: when concatenation and cloning both succeed (a truthy voice
identifier was obtained) but the marker write fails, the response is the
500 "Failed to save voice_id to storage" body that still carries the
obtained voice identifier. -/
theorem C3_save_failure_carries_id (k : Option String) (req : Request)
    (w : World) (vid : String)
    (h1 : require_api_key k req = true) (h2 : truthy req.userId = true)
    (h3 : truthy (check_voice_exists w.marker) = false)
    (h4 : ¬ (calculate_audio_duration w.recordings).duration_seconds < 15)
    (h5 : truthyBytes (call_pyglue w.pyglue) = true)
    (h6 : clone_voice_elevenlabs w.elevenlabs = some vid) (hv : vid ≠ "")
    (h7 : w.uploadOk = false) :
    (cloneVoice k req w).1 = saveFailedResponse vid ∧
    (cloneVoice k req w).1.status = 500 ∧
    (cloneVoice k req w).1.error = some "Failed to save voice_id to storage" ∧
    (cloneVoice k req w).1.voice_id = some vid := by
  have h6' : truthy (clone_voice_elevenlabs w.elevenlabs) = true := by
    rw [h6]
    simp [truthy, hv]
  have h7' : save_voice_id w.uploadOk = false := by rw [h7]; rfl
  have hrun := cloneVoice_saveFailed k req w h1 h2 h3 h4 h5 h6' h7'
  rw [h6] at hrun
  rw [hrun]
  exact ⟨rfl, rfl, rfl, rfl⟩

/-- C3 witness: with voice id "abc123" cloned and a failing marker write,
the concrete run returns the 500 persistence-failure body carrying
"abc123". -/
theorem C3_save_failure_carries_id_witness :
    (cloneVoice (some "secret") reqOk worldSaveFail).1 =
      saveFailedResponse "abc123" ∧
    (cloneVoice (some "secret") reqOk worldSaveFail).1.status = 500 ∧
    (cloneVoice (some "secret") reqOk worldSaveFail).1.voice_id =
      some "abc123" := by
  have hdur : ¬ (calculate_audio_duration
      worldSaveFail.recordings).duration_seconds < 15 := by
    show ¬ (calculate_audio_duration blobs480).duration_seconds < 15
    rw [blobs480_info]
    norm_num
  have h := C3_save_failure_carries_id (some "secret") reqOk worldSaveFail
    "abc123" (by decide) (by decide) (by decide) hdur (by decide) rfl
    (by decide) rfl
  exact ⟨h.1, h.2.1, h.2.2.2⟩

/-- C4: for every authenticated request whose userId is empty or absent,
the response is 400 with body {error: "Missing userId"} and nothing else,
and no workflow step runs. -/
theorem C4_missing_userId (k : Option String) (req : Request) (w : World)
    (h1 : require_api_key k req = true)
    (h2 : req.userId = none ∨ req.userId = some "") :
    cloneVoice k req w = (missingUserIdResponse, Trace.empty) ∧
    missingUserIdResponse.status = 400 ∧
    missingUserIdResponse.error = some "Missing userId" := by
  have h2' : truthy req.userId = false := by
    rcases h2 with h | h <;> simp [h, truthy]
  exact ⟨cloneVoice_missingUserId k req w h1 h2', rfl, rfl⟩

/-- C4 witness: a concrete authenticated request with no userId field gets
the 400 missing-userId response. -/
theorem C4_missing_userId_witness :
    reqNoUser.userId = none ∧
    (cloneVoice (some "secret") reqNoUser worldBase).1 =
      missingUserIdResponse ∧
    (cloneVoice (some "secret") reqNoUser worldBase).1.status = 400 := by
  have h := C4_missing_userId (some "secret") reqNoUser worldBase
    (by decide) (Or.inl rfl)
  exact ⟨rfl, by rw [h.1], by rw [h.1]; rfl⟩

/-- C5: a 200 from the cloning collaborator whose body lacks the voice_id
field, a non-200 status, or a timeout/transport error all yield the one
generic cloning-failure response: 500, "Failed to clone voice on
ElevenLabs", no identifier. -/
theorem C5_clone_failure_uniform (k : Option String) (req : Request)
    (w : World)
    (h1 : require_api_key k req = true) (h2 : truthy req.userId = true)
    (h3 : truthy (check_voice_exists w.marker) = false)
    (h4 : ¬ (calculate_audio_duration w.recordings).duration_seconds < 15)
    (h5 : truthyBytes (call_pyglue w.pyglue) = true)
    (h6 : w.elevenlabs = HttpOutcome.response 200 (ElevenBody.parsed none) ∨
      (∃ s b, w.elevenlabs = HttpOutcome.response s b ∧ s ≠ 200) ∨
      w.elevenlabs = HttpOutcome.failure) :
    (cloneVoice k req w).1 = cloneFailedResponse ∧
    (cloneVoice k req w).1.status = 500 ∧
    (cloneVoice k req w).1.error = some "Failed to clone voice on ElevenLabs" ∧
    (cloneVoice k req w).1.voice_id = none := by
  have h6' : truthy (clone_voice_elevenlabs w.elevenlabs) = false := by
    rcases h6 with h | ⟨s, b, h, hs⟩ | h
    · rw [h]; rfl
    · rw [h]
      simp [clone_voice_elevenlabs, truthy, hs]
    · rw [h]; rfl
  rw [cloneVoice_cloneFailed k req w h1 h2 h3 h4 h5 h6']
  exact ⟨rfl, rfl, rfl, rfl⟩

/-- C5 witness: an ElevenLabs 200 whose JSON body has no voice_id field
produces the concrete cloning-failure response. -/
theorem C5_clone_failure_uniform_witness :
    worldCloneNoId.elevenlabs =
      HttpOutcome.response 200 (ElevenBody.parsed none) ∧
    (cloneVoice (some "secret") reqOk worldCloneNoId).1 =
      cloneFailedResponse ∧
    (cloneVoice (some "secret") reqOk worldCloneNoId).1.voice_id = none := by
  have hdur : ¬ (calculate_audio_duration
      worldCloneNoId.recordings).duration_seconds < 15 := by
    show ¬ (calculate_audio_duration blobs480).duration_seconds < 15
    rw [blobs480_info]
    norm_num
  have h := C5_clone_failure_uniform (some "secret") reqOk worldCloneNoId
    (by decide) (by decide) (by decide) hdur (by decide) (Or.inl rfl)
  exact ⟨rfl, h.1, h.2.2.2⟩

/-- C6: a non-200 status, timeout, or transport failure from the
concatenation collaborator yields the single generic 500 concatenation
failure, with pyglue called exactly once and no later collaborator
invoked. -/
theorem C6_concat_failure_uniform (k : Option String) (req : Request)
    (w : World)
    (h1 : require_api_key k req = true) (h2 : truthy req.userId = true)
    (h3 : truthy (check_voice_exists w.marker) = false)
    (h4 : ¬ (calculate_audio_duration w.recordings).duration_seconds < 15)
    (h5 : (∃ s b, w.pyglue = HttpOutcome.response s b ∧ s ≠ 200) ∨
      w.pyglue = HttpOutcome.failure) :
    (cloneVoice k req w).1 = concatFailedResponse ∧
    (cloneVoice k req w).1.status = 500 ∧
    (cloneVoice k req w).1.error = some "Failed to concatenate audio files" ∧
    (cloneVoice k req w).2.pyglueCalls = 1 ∧
    (cloneVoice k req w).2.elevenLabsCalls = 0 ∧
    (cloneVoice k req w).2.saveCalls = 0 := by
  have h5' : truthyBytes (call_pyglue w.pyglue) = false := by
    rcases h5 with ⟨s, b, h, hs⟩ | h
    · rw [h]
      simp [call_pyglue, truthyBytes, hs]
    · rw [h]; rfl
  rw [cloneVoice_concatFailed k req w h1 h2 h3 h4 h5']
  exact ⟨rfl, rfl, rfl, rfl, rfl, rfl⟩

/-- C6 witness: a concrete pyglue 503 produces the concatenation-failure
response with exactly one pyglue call and no ElevenLabs or save call. -/
theorem C6_concat_failure_uniform_witness :
    worldConcat503.pyglue = HttpOutcome.response 503 [] ∧
    (cloneVoice (some "secret") reqOk worldConcat503).1 =
      concatFailedResponse ∧
    (cloneVoice (some "secret") reqOk worldConcat503).2.elevenLabsCalls = 0 := by
  have hdur : ¬ (calculate_audio_duration
      worldConcat503.recordings).duration_seconds < 15 := by
    show ¬ (calculate_audio_duration blobs480).duration_seconds < 15
    rw [blobs480_info]
    norm_num
  have h := C6_concat_failure_uniform (some "secret") reqOk worldConcat503
    (by decide) (by decide) (by decide) hdur
    (Or.inl ⟨503, [], rfl, by decide⟩)
  exact ⟨rfl, h.1, h.2.2.2.2.1⟩

/-- C7: a request whose combined API_KEY / X-API-Key header value is
absent, empty, or different from the configured secret gets the 401
unauthorized body and executes no workflow step. -/
theorem C7_unauthorized (k : Option String) (req : Request) (w : World)
    (h : ∀ s : String,
      pyOr req.apiKeyHeader req.xApiKeyHeader = some s →
        s = "" ∨ k ≠ some s) :
    cloneVoice k req w = (unauthorizedResponse, Trace.empty) ∧
    unauthorizedResponse.status = 401 ∧
    unauthorizedResponse.error = some "Unauthorized: Invalid API key" := by
  have hfalse : require_api_key k req = false := by
    unfold require_api_key
    cases hp : pyOr req.apiKeyHeader req.xApiKeyHeader with
    | none => simp [truthy]
    | some s =>
      rcases h s hp with h' | h'
      · simp [truthy, h']
      · have hbeq : ((some s : Option String) == k) = false :=
          beq_eq_false_iff_ne.mpr (Ne.symm h')
        simp [hbeq]
  exact ⟨cloneVoice_unauthorized k req w hfalse, rfl, rfl⟩

/-- C7 witness: a concrete request with a wrong X-API-Key gets the 401
response and an all-zero collaborator trace. -/
theorem C7_unauthorized_witness :
    (cloneVoice (some "secret") reqBadKey worldBase).1 =
      unauthorizedResponse ∧
    (cloneVoice (some "secret") reqBadKey worldBase).1.status = 401 ∧
    (cloneVoice (some "secret") reqBadKey worldBase).2 = Trace.empty := by
  have h := C7_unauthorized (some "secret") reqBadKey worldBase (by
    intro s hs
    right
    intro hk
    have hs' : (some "wrong" : Option String) = some s := hs
    cases hs'
    exact absurd hk (by decide))
  exact ⟨by rw [h.1], by rw [h.1]; rfl, by rw [h.1]⟩

/-- C8: the end-to-end scenario: ten recognized files totaling 480 KB, no
marker, successful concatenation, cloning returning "abc123" and a
successful marker write produce a 200 success with voice_id "abc123",
audio_duration 30.0 and file_count 10. -/
theorem C8_end_to_end :
    (calculate_audio_duration worldBase.recordings).total_bytes = 491520 ∧
    (calculate_audio_duration worldBase.recordings).file_count = 10 ∧
    (cloneVoice (some "secret") reqOk worldBase).1.status = 200 ∧
    (cloneVoice (some "secret") reqOk worldBase).1.success = some true ∧
    (cloneVoice (some "secret") reqOk worldBase).1.voice_id = some "abc123" ∧
    (cloneVoice (some "secret") reqOk worldBase).1.audio_duration = some 30 ∧
    (cloneVoice (some "secret") reqOk worldBase).1.file_count = some 10 := by
  have hdur : ¬ (calculate_audio_duration
      worldBase.recordings).duration_seconds < 15 := by
    show ¬ (calculate_audio_duration blobs480).duration_seconds < 15
    rw [blobs480_info]
    norm_num
  have hrun := cloneVoice_success (some "secret") reqOk worldBase
    (by decide) (by decide) (by decide) hdur (by decide) (by decide)
    (by decide)
  rw [hrun]
  refine ⟨?_, ?_, rfl, rfl, rfl, ?_, ?_⟩
  · rw [show worldBase.recordings = blobs480 from rfl, blobs480_info]
  · rw [show worldBase.recordings = blobs480 from rfl, blobs480_info]
  · show some (pyRound1 (calculate_audio_duration
      worldBase.recordings).duration_seconds) = some (30 : ℚ)
    rw [show worldBase.recordings = blobs480 from rfl, blobs480_info]
    rw [show (30 : ℚ) = ((30 : ℤ) : ℚ) by norm_num, pyRound1_intCast]
  · show some (calculate_audio_duration
      worldBase.recordings).file_count = some 10
    rw [show worldBase.recordings = blobs480 from rfl, blobs480_info]

/-- C9: the display-name lookup always returns a (first, last) pair,
defaulting to ("User", "Voice") when the credentials record is missing or
unreadable, and the credentials state never changes the status, success
flag, or error of the workflow response. -/
theorem C9_name_lookup_harmless :
    get_user_name CredsState.readError = ("User", "Voice") ∧
    get_user_name CredsState.absent = ("User", "Voice") ∧
    ∀ (k : Option String) (req : Request) (w : World) (c : CredsState),
      (cloneVoice k req { w with creds := c }).1.status =
        (cloneVoice k req w).1.status ∧
      (cloneVoice k req { w with creds := c }).1.success =
        (cloneVoice k req w).1.success ∧
      (cloneVoice k req { w with creds := c }).1.error =
        (cloneVoice k req w).1.error := by
  refine ⟨rfl, rfl, ?_⟩
  intro k req w c
  refine ⟨?_, ?_, ?_⟩ <;>
  · simp only [cloneVoice]
    split_ifs <;> rfl

/-- C10 counterexample: a marker record whose voice_id field is the empty
string makes `check_voice_exists` return the empty string, not None, even
though the workflow does proceed to the duration check. -/
theorem C10_counterexample :
    worldMarkerEmptyId.marker = MarkerState.present (some "") ∧
    check_voice_exists worldMarkerEmptyId.marker = some "" ∧
    check_voice_exists worldMarkerEmptyId.marker ≠ none ∧
    (cloneVoice (some "secret") reqOk worldMarkerEmptyId).2.listRecordings = 1 ∧
    (cloneVoice (some "secret") reqOk worldMarkerEmptyId).1.skipped = none := by
  have hdur : ¬ (calculate_audio_duration
      worldMarkerEmptyId.recordings).duration_seconds < 15 := by
    show ¬ (calculate_audio_duration blobs480).duration_seconds < 15
    rw [blobs480_info]
    norm_num
  have hrun := cloneVoice_success (some "secret") reqOk worldMarkerEmptyId
    (by decide) (by decide) (by decide) hdur (by decide) (by decide)
    (by decide)
  rw [hrun]
  exact ⟨rfl, rfl, by decide, rfl, rfl⟩

/-- C10 (amended): when the idempotence check hits a read/parse exception,
or the marker record exists with the voice_id field absent or empty, the
check yields a falsy value (None after an exception or a missing field,
the empty string when the field is empty) and the workflow proceeds
exactly as if no marker existed, reaching the duration check instead of
skipping or erroring. -/
theorem C10_falsy_marker_proceeds (k : Option String) (req : Request)
    (w : World)
    (h1 : require_api_key k req = true) (h2 : truthy req.userId = true)
    (h3 : w.marker = MarkerState.readError ∨
      w.marker = MarkerState.present none ∨
      w.marker = MarkerState.present (some "")) :
    truthy (check_voice_exists w.marker) = false ∧
    cloneVoice k req w =
      cloneVoice k req { w with marker := MarkerState.absent } ∧
    (cloneVoice k req w).2.listRecordings = 1 ∧
    (cloneVoice k req w).1.skipped = none := by
  have hf : truthy (check_voice_exists w.marker) = false := by
    rcases h3 with h | h | h <;> simp [h, check_voice_exists, truthy]
  have hf' : truthy (check_voice_exists MarkerState.absent) = false := rfl
  refine ⟨hf, ?_, ?_, ?_⟩
  · simp only [cloneVoice]
    simp [h1, h2, hf, hf']
  · simp only [cloneVoice]
    simp [h1, h2, hf]
    split_ifs <;> rfl
  · simp only [cloneVoice]
    simp [h1, h2, hf]
    split_ifs <;> rfl

/-- C10 witness: a marker read that would raise, against an otherwise
successful world, proceeds to the duration check and beyond. -/
theorem C10_falsy_marker_proceeds_witness :
    truthy (check_voice_exists MarkerState.readError) = false ∧
    (cloneVoice (some "secret") reqOk
      { worldBase with marker := MarkerState.readError }).2.listRecordings = 1 := by
  have h := C10_falsy_marker_proceeds (some "secret") reqOk
    { worldBase with marker := MarkerState.readError }
    (by decide) (by decide) (Or.inl rfl)
  exact ⟨h.1, h.2.2.1⟩

end VoiceClone
